import Mathlib

/-!
Formal model of the parking-state evaluation engine of the QHacks_Meter
repository (src/src/data/parkingData.ts, src/src/hooks/useParkingData.ts,
src/src/lib/parkingChat.ts, src/src/components/ParkingCard.tsx).

JavaScript numbers are modelled as `ℚ` (spot counts as `Int`), strings as
Lean `String` processed through their character lists, and `Date` values as
an explicit `Instant` (day-of-week 0..6, hours, minutes), mirroring the only
three accessors the code uses (`getDay`, `getHours`, `getMinutes`).  The
haversine helper (`dist` in parkingData.ts / `haversineDistance` from the
`lib/distance` module, which is not part of the repository snapshot) is a
parameter `distFn` of every definition that consumes it: none of the claims
depends on the metric itself.
-/

/-- JS `s.includes(sub)` on character lists: `p` occurs inside `s`. -/
def occursIn (p : List Char) : List Char → Bool
  | [] => p.isEmpty
  | c :: rest => p.isPrefixOf (c :: rest) || occursIn p rest

/-- JS `String.prototype.includes`. -/
def jsIncludes (s sub : String) : Bool :=
  occursIn sub.data s.data

/-- JS `\s` whitespace class (the characters relevant to this codebase). -/
def isJsSpace (c : Char) : Bool :=
  c.val = 32 || c.val = 9 || c.val = 10 || c.val = 13 || c.val = 11 || c.val = 12 || c.val = 160

/-- JS `\w` word-character class. -/
def wordChar (c : Char) : Bool :=
  c.isAlphanum || c = '_'

/-- JS `String.prototype.toLowerCase` (ASCII, which is all this code needs). -/
def jsToLower (s : String) : String :=
  ⟨s.data.map Char.toLower⟩

/-- JS `String.prototype.trim`. -/
def jsTrim (s : String) : String :=
  ⟨((s.data.dropWhile isJsSpace).reverse.dropWhile isJsSpace).reverse⟩

/-- JS `Array.prototype.join(sep)`. -/
def joinSep (sep : String) : List String → String
  | [] => ""
  | x :: rest => rest.foldl (fun acc y => acc ++ sep ++ y) x

/-- JS `Math.round`: round half toward positive infinity. -/
def jsRound (x : ℚ) : Int :=
  Int.floor (x + 1 / 2)

/-- Split a character list at a separator character (JS `s.split(sep)`). -/
def splitCharAux (sep : Char) : List Char → List Char → List (List Char)
  | [], acc => [acc.reverse]
  | c :: rest, acc =>
    if c = sep then acc.reverse :: splitCharAux sep rest []
    else splitCharAux sep rest (c :: acc)

/-- JS `Number(s)` for the digit strings (`"09"`, `"30"`, `""`) this code
parses; `Number("") = 0`.  Non-digit input (which would be `NaN` in JS and
never occurs in this repository's time strings) is mapped to 0. -/
def jsNumberNat (cs : List Char) : Nat :=
  if cs.all Char.isDigit then cs.foldl (fun acc c => acc * 10 + (c.toNat - 48)) 0 else 0

/-- parkingData.ts `parseTime`: parse `"09:30"` to minutes since midnight. -/
def parseTime (t : String) : Nat :=
  let parts := (splitCharAux ':' t.data []).map jsNumberNat
  parts.getD 0 0 * 60 + parts.getD 1 0

/-- The slice of a JS `Date` the engine reads: `getDay()` (0 = Sunday),
`getHours()`, `getMinutes()`. -/
structure Instant where
  day : Nat
  hours : Nat
  minutes : Nat
deriving DecidableEq

/-- `date.getHours() * 60 + date.getMinutes()`. -/
def minsOfDay (d : Instant) : Nat :=
  d.hours * 60 + d.minutes

inductive LocType where
  | street
  | lot
deriving DecidableEq

inductive PriceUnit where
  | hour
  | halfhour
  | flat
deriving DecidableEq

/-- `evCharging?: boolean | 'level2' | 'level3'`. -/
inductive EvCharging where
  | plain (b : Bool)
  | level2
  | level3
deriving DecidableEq

/-- parkingData.ts `ParkingHours` (the `end` field is `endTime` here because
`end` is reserved in Lean). -/
structure ParkingHours where
  days : List Nat
  start : String
  endTime : String
deriving DecidableEq

/-- parkingData.ts `PriceTier`. -/
structure PriceTier where
  days : Option (List Nat)
  startTime : String
  endTime : String
  rate : ℚ
  unit : PriceUnit
  dailyMax : Option ℚ
deriving DecidableEq

/-- parkingData.ts `ParkingPricing`; the optional `permitOnly` flag is a
`Bool` because the code only tests its truthiness. -/
structure ParkingPricing where
  permitOnly : Bool
  tiers : List PriceTier
deriving DecidableEq

/-- parkingData.ts `ParkingLocation`. -/
structure ParkingLocation where
  id : String
  name : String
  type : LocType
  totalSpots : Int
  availableSpots : Int
  lat : ℚ
  lng : ℚ
  address : Option String := none
  operatingHours : Option (List ParkingHours) := none
  pricing : Option ParkingPricing := none
  maxStayHours : Option ℚ := none
  path : Option (List (ℚ × ℚ)) := none
  spots : Option (List (ℚ × ℚ)) := none
  evCharging : Option EvCharging := none
  accessibleParking : Option Bool := none
  heightClearanceM : Option ℚ := none
deriving DecidableEq

/-- The callback of `isLocationOpen`: one operating-hours window matches the
instant (day of week in the window's day list, minutes within
`[start, end)` after the `end < start` overnight adjustment). -/
def windowMatches (day mins : Nat) (h : ParkingHours) : Bool :=
  if ¬ h.days.contains day then false
  else
    let start := parseTime h.start
    let e0 := parseTime h.endTime
    let e := if e0 < start then e0 + 24 * 60 else e0
    decide (start ≤ mins ∧ mins < e)

/-- parkingData.ts `isLocationOpen`. -/
def isLocationOpen (location : ParkingLocation) (date : Instant) : Bool :=
  if location.type = LocType.street then true
  else
    match location.operatingHours with
    | none => true
    | some hs =>
      if hs.isEmpty then true
      else hs.any (windowMatches date.day (minsOfDay date))

/-- Insertion step of a stable insertion sort (models JS `Array.prototype.sort`
with a consistent comparator, which is stable). -/
def insertByLe (le : α → α → Bool) (x : α) : List α → List α
  | [] => [x]
  | y :: rest => if le x y then x :: y :: rest else y :: insertByLe le x rest

/-- Stable sort (models JS `Array.prototype.sort` with a consistent
comparator). -/
def insertionSort (le : α → α → Bool) : List α → List α
  | [] => []
  | x :: rest => insertByLe le x (insertionSort le rest)

/-- `[...new Set([...a, ...b])]`: concatenation deduplicated keeping first
occurrences, in insertion order. -/
def jsSetDedup (l : List Nat) : List Nat :=
  l.foldl (fun acc x => if acc.contains x then acc else acc ++ [x]) []

/-- One grouped entry of `getHoursDisplay`. -/
structure HoursGroup where
  days : List Nat
  start : String
  endTime : String

/-- The `reduce` step of `getHoursDisplay`: merge into an existing group with
the same `(start, end)` pair (groups are unique by that pair, so updating
every match equals the source's update of the first match), else push. -/
def addToGroups (acc : List HoursGroup) (curr : HoursGroup) : List HoursGroup :=
  if acc.any (fun g => g.start = curr.start && g.endTime = curr.endTime) then
    acc.map (fun g =>
      if g.start = curr.start && g.endTime = curr.endTime then
        { g with days := jsSetDedup (g.days ++ curr.days) }
      else g)
  else acc ++ [curr]

/-- `String(m).padStart(2, '0')`. -/
def padStart2 (s : String) : String :=
  if s.length ≥ 2 then s else if s.length = 1 then "0" ++ s else "00"

/-- The `fmt` helper of `getHoursDisplay`: 12-hour clock with a.m./p.m. -/
def fmtTime12 (t : String) : String :=
  let parts := (splitCharAux ':' t.data []).map jsNumberNat
  let h := parts.getD 0 0
  let m := parts.getD 1 0
  let hr := if h ≥ 12 then (if h = 12 then 12 else h - 12) else (if h = 0 then 12 else h)
  toString hr ++ ":" ++ padStart2 (toString m) ++ (if h ≥ 12 then " p.m." else " a.m.")

/-- Ascending sort of a day list (JS `days.sort((a, b) => a - b)`). -/
def sortNatsAsc (l : List Nat) : List Nat :=
  insertionSort (fun a b => decide (a ≤ b)) l

/-- parkingData.ts `getHoursDisplay` (its `date` parameter is unused in the
source as well). -/
def getHoursDisplay (location : ParkingLocation) (_date : Instant) : String :=
  match location.operatingHours with
  | none => "24 hours"
  | some hs =>
    if hs.isEmpty then "24 hours"
    else
      let dayNames := ["Sun", "Mon", "Tue", "Wed", "Thu", "Fri", "Sat"]
      let groups := (hs.map (fun h => HoursGroup.mk (sortNatsAsc h.days) h.start h.endTime)).foldl addToGroups []
      joinSep "; " (groups.map (fun g =>
        let dayStr :=
          if g.days.length = 7 then "Daily"
          else joinSep ", " (g.days.map (fun d => dayNames.getD d "undefined"))
        dayStr ++ " " ++ fmtTime12 g.start ++ "–" ++ fmtTime12 g.endTime))

/-- Two decimal digits, zero padded. -/
def pad2 (n : Nat) : String :=
  if n < 10 then "0" ++ toString n else toString n

/-- JS `x.toFixed(2)` for nonnegative `x` (round half up). -/
def toFixed2Nonneg (x : ℚ) : String :=
  let n := (Int.floor (x * 100 + 1 / 2)).toNat
  toString (n / 100) ++ "." ++ pad2 (n % 100)

/-- JS `x.toFixed(2)`. -/
def toFixed2 (x : ℚ) : String :=
  if x < 0 then "-" ++ toFixed2Nonneg (-x) else toFixed2Nonneg x

/-- Smallest power of ten that clears the denominator (for JS default number
formatting of the terminating decimals used in this data). -/
def decShift (x : ℚ) : Option Nat :=
  (List.range 11).find? (fun k => (x * (10 : ℚ) ^ k).den = 1)

/-- Left-pad with zeros to `k` digits. -/
def padLeftZeros (k : Nat) (m : Nat) : String :=
  let s := toString m
  String.mk (List.replicate (k - s.length) '0') ++ s

/-- JS default number-to-string for a nonnegative terminating decimal. -/
def fmtNumNonneg (x : ℚ) : String :=
  match decShift x with
  | some 0 => toString x.num
  | some k =>
    let n := (x * (10 : ℚ) ^ k).num.toNat
    toString (n / 10 ^ k) ++ "." ++ padLeftZeros k (n % 10 ^ k)
  | none => toString x.num ++ "/" ++ toString x.den

/-- JS default number-to-string (`${x}` in a template literal). -/
def fmtNum (x : ℚ) : String :=
  if x < 0 then "-" ++ fmtNumNonneg (-x) else fmtNumNonneg x

/-- The unit suffix of `getCurrentPrice`'s label. -/
def unitSuffix : PriceUnit → String
  | PriceUnit.hour => "/hr"
  | PriceUnit.halfhour => "/30 min"
  | PriceUnit.flat => "flat"

/-- The record `getCurrentPrice` returns. -/
structure PriceResult where
  rate : ℚ
  unit : PriceUnit
  dailyMax : Option ℚ
  label : String
deriving DecidableEq

/-- The object built for a matching tier inside `getCurrentPrice`. -/
def tierResult (tier : PriceTier) : PriceResult :=
  let unitLabel := unitSuffix tier.unit
  let dailyStr :=
    match tier.dailyMax with
    | some d => if d ≠ 0 then " (max $" ++ fmtNum d ++ "/day)" else ""
    | none => ""
  let label :=
    if tier.rate = 0 then "Free"
    else "$" ++ toFixed2 tier.rate ++ unitLabel ++ dailyStr
  ⟨tier.rate, tier.unit, tier.dailyMax, label⟩

/-- The per-tier match test of `getCurrentPrice` (day defaulting to all
seven days, minutes within `[start, end)` after the overnight adjustment). -/
def tierMatches (day mins : Nat) (tier : PriceTier) : Bool :=
  let days := tier.days.getD [0, 1, 2, 3, 4, 5, 6]
  if ¬ days.contains day then false
  else
    let start := parseTime tier.startTime
    let e0 := parseTime tier.endTime
    let e := if e0 < start then e0 + 24 * 60 else e0
    decide (start ≤ mins ∧ mins < e)

/-- parkingData.ts `getCurrentPrice`. -/
def getCurrentPrice (location : ParkingLocation) (date : Instant) : Option PriceResult :=
  match location.pricing with
  | none => none
  | some pricing =>
    if pricing.tiers.isEmpty || pricing.permitOnly then none
    else (pricing.tiers.find? (tierMatches date.day (minsOfDay date))).map tierResult

inductive StatusColor where
  | available
  | low
  | full
deriving DecidableEq

/-- parkingData.ts `getStatusColor`. -/
def getStatusColor (available total : ℚ) : StatusColor :=
  if available = 0 then StatusColor.full
  else if available / total * 100 ≤ 20 then StatusColor.low
  else StatusColor.available

/-- parkingData.ts `getStatusLabel`. -/
def getStatusLabel : StatusColor → String
  | StatusColor.available => "Available"
  | StatusColor.low => "Limited"
  | StatusColor.full => "Full"

/-- useParkingData.ts `applySensorUpdate`, as the pure state-update function
passed to `setParkingData`: clamp the observation into `[0, totalSpots]` for
the matching id, leave every other entry alone. -/
def applySensorUpdate (catalog : List ParkingLocation) (lotId : String) (availableSpots : Int) :
    List ParkingLocation :=
  catalog.map fun loc =>
    if loc.id = lotId then
      { loc with availableSpots := max 0 (min loc.totalSpots availableSpots) }
    else loc

/-- The abstract distance helper (parkingData.ts `dist` / the repository's
`haversineDistance`): latitude, longitude of both points to meters. -/
abbrev DistFn := ℚ → ℚ → ℚ → ℚ → ℚ

/-- Consecutive path points with their segment length (the `segLengths` loop
of `getSpotPositions`). -/
def pathSegs (distFn : DistFn) : List (ℚ × ℚ) → List ((ℚ × ℚ) × (ℚ × ℚ) × ℚ)
  | p0 :: p1 :: rest => (p0, p1, distFn p0.1 p0.2 p1.1 p1.2) :: pathSegs distFn (p1 :: rest)
  | _ => []

/-- Linear interpolation along one segment (the `result.push` expression). -/
def lerp (p0 p1 : ℚ × ℚ) (f : ℚ) : ℚ × ℚ :=
  (p0.1 + (p1.1 - p0.1) * f, p0.2 + (p1.2 - p0.2) * f)

/-- One segment's placement: `segLengths[j] || 1`, clamp of the fraction into
`[0.2, 0.8]`, then interpolate. -/
def interpSeg (p0 p1 : ℚ × ℚ) (len accumulated targetDist : ℚ) : ℚ × ℚ :=
  let segLen := if len = 0 then 1 else len
  let frac := max (2 / 10) (min (8 / 10) ((targetDist - accumulated) / segLen))
  lerp p0 p1 frac

/-- The inner `for j` loop of `getSpotPositions`: walk the segments
accumulating length; place on the first segment that reaches `targetDist`,
or unconditionally on the last one. -/
def placeSpot : List ((ℚ × ℚ) × (ℚ × ℚ) × ℚ) → ℚ → ℚ → Option (ℚ × ℚ)
  | [], _, _ => none
  | [(p0, p1, len)], accumulated, targetDist => some (interpSeg p0 p1 len accumulated targetDist)
  | (p0, p1, len) :: s :: rest, accumulated, targetDist =>
    if accumulated + len ≥ targetDist then some (interpSeg p0 p1 len accumulated targetDist)
    else placeSpot (s :: rest) (accumulated + len) targetDist

/-- parkingData.ts `getSpotPositions`. -/
def getSpotPositions (distFn : DistFn) (location : ParkingLocation) : List (ℚ × ℚ) :=
  match location.path with
  | none => []
  | some path =>
    if path.length < 2 ∨ location.totalSpots ≤ 0 then []
    else
      let segs := pathSegs distFn path
      let totalLen := (segs.map (fun s => s.2.2)).sum
      if totalLen = 0 then []
      else
        (List.range location.totalSpots.toNat).filterMap fun (i : Nat) =>
          let t : ℚ := ((i : ℚ) + 1 / 2) / (location.totalSpots : ℚ)
          placeSpot segs 0 (t * totalLen)

/-- The render-relevant data computed by the `ParkingCard` component
(ParkingCard.tsx): open flag, status, the two places the available count is
displayed (status badge and the big number), the badge label props, the
"Closed • hours" line, and the price line. -/
structure CardDisplay where
  isOpen : Bool
  status : StatusColor
  badgeAvailable : Int
  badgeShowLabel : Bool
  badgeLabel : Option String
  countDisplay : Int
  closedHoursLine : Option String
  priceLine : Option String
deriving DecidableEq

/-- ParkingCard.tsx `ParkingCard`, as the pure function from the location and
the current time to the displayed data.  The component only reads `location`;
the returned second component records the location as the component leaves
it. -/
def parkingCard (location : ParkingLocation) (currentTime : Instant) :
    CardDisplay × ParkingLocation :=
  let isOpen := isLocationOpen location currentTime
  let price := getCurrentPrice location currentTime
  let status :=
    if isOpen then getStatusColor (location.availableSpots : ℚ) (location.totalSpots : ℚ)
    else StatusColor.full
  ({ isOpen := isOpen
     status := status
     badgeAvailable := if isOpen then location.availableSpots else 0
     badgeShowLabel := !isOpen
     badgeLabel := if !isOpen then some "Closed" else none
     countDisplay := if isOpen then location.availableSpots else 0
     closedHoursLine :=
       if !isOpen && location.operatingHours.isSome then
         some ("Closed • " ++ getHoursDisplay location currentTime)
       else none
     priceLine := price.map PriceResult.label }, location)

/-- parkingData.ts `KINGSTON_CENTER`. -/
def KINGSTON_CENTER : ℚ × ℚ := (44.2312, -76.4860)

/-- parkingChat.ts `ChatUserLocation`. -/
structure ChatUserLocation where
  lat : ℚ
  lng : ℚ

/-- One entry of the landmark lexicon. -/
structure Landmark where
  lat : ℚ
  lng : ℚ
  label : String

/-- parkingChat.ts `LANDMARKS`, in the object's insertion (iteration)
order. -/
def LANDMARKS : List (String × Landmark) :=
  [ ("queen's", ⟨44.2287, -76.4915, "Queen's University"⟩)
  , ("queens", ⟨44.2287, -76.4915, "Queen's University"⟩)
  , ("university", ⟨44.2287, -76.4915, "Queen's University"⟩)
  , ("waterfront", ⟨44.226, -76.485, "Kingston Waterfront"⟩)
  , ("hospital", ⟨44.2295, -76.496, "Kingston General Hospital (KGH)"⟩)
  , ("kgh", ⟨44.2295, -76.496, "Kingston General Hospital"⟩)
  , ("downtown", ⟨KINGSTON_CENTER.1, KINGSTON_CENTER.2, "downtown Kingston"⟩) ]

/-- parkingChat.ts `NEAR_RADIUS_M`. -/
def NEAR_RADIUS_M : ℚ := 400

/-- parkingChat.ts `NAME_KEYWORDS` (order matters: longer names first). -/
def NAME_KEYWORDS : List (String × (ParkingLocation → Bool)) :=
  [ ("beamish munro", fun l => l.id == "beamish-munro-hall" || jsIncludes (jsToLower l.name) "beamish")
  , ("chown garage", fun l => l.id == "chown-garage" || (jsIncludes (jsToLower l.name) "chown" && l.type == LocType.lot))
  , ("hanson garage", fun l => l.id == "hanson-garage" || jsIncludes (jsToLower l.name) "hanson")
  , ("waterfront", fun l => l.id == "waterfront-lot" || jsIncludes (jsToLower l.name) "waterfront")
  , ("princess", fun l => jsIncludes (jsToLower l.name) "princess" || l.id == "princess-st")
  , ("king street", fun l => jsIncludes (jsToLower l.name) "king")
  , ("king", fun l => jsIncludes (jsToLower l.name) "king")
  , ("brock", fun l => jsIncludes (jsToLower l.name) "brock")
  , ("ontario", fun l => jsIncludes (jsToLower l.name) "ontario")
  , ("division", fun l => jsIncludes (jsToLower l.name) "division")
  , ("wellington", fun l => jsIncludes (jsToLower l.name) "wellington")
  , ("clergy", fun l => jsIncludes (jsToLower l.name) "clergy")
  , ("barrack", fun l => jsIncludes (jsToLower l.name) "barrack")
  , ("angrove", fun l => jsIncludes (jsToLower l.name) "angrove")
  , ("library", fun l => jsIncludes (jsToLower l.name) "library")
  , ("mckee", fun l => jsIncludes (jsToLower l.name) "mckee")
  , ("garage", fun l => jsIncludes (jsToLower l.name) "garage")
  , ("lot", fun l => l.type == LocType.lot)
  , ("street", fun l => l.type == LocType.street) ]

/-- The loop of `findLocationsByQuestion`: remember the last keyword the
question contains, stop at the first whose filter is non-empty. -/
def findLocationsByQuestionAux (locations : List ParkingLocation) (q : String) :
    List (String × (ParkingLocation → Bool)) → List ParkingLocation → Option String →
    List ParkingLocation × Option String
  | [], filtered, matchedName => (filtered, matchedName)
  | (kw, m) :: rest, filtered, matchedName =>
    if jsIncludes q kw then
      let f := locations.filter m
      if f.length > 0 then (f, some kw)
      else findLocationsByQuestionAux locations q rest f (some kw)
    else findLocationsByQuestionAux locations q rest filtered matchedName

/-- parkingChat.ts `findLocationsByQuestion`. -/
def findLocationsByQuestion (locations : List ParkingLocation) (q : String) :
    List ParkingLocation × Option String :=
  findLocationsByQuestionAux locations q NAME_KEYWORDS locations none

/-- parkingChat.ts `filterByLandmark`. -/
def filterByLandmark (distFn : DistFn) (locations : List ParkingLocation) (landmarkKey : String) :
    List ParkingLocation :=
  match LANDMARKS.find? (fun kv => kv.1 == landmarkKey) with
  | none => locations
  | some kv =>
    locations.filter fun loc =>
      decide (distFn loc.lat loc.lng kv.2.lat kv.2.lng ≤ NEAR_RADIUS_M)

/-- `p1` occurs, and `p2` occurs after it with no newline in the gap
(a JS regex `p1.*p2` without the dotall flag). -/
def seqAux (p1 p2 : List Char) : List Char → Bool
  | [] => p1.isEmpty && p2.isEmpty
  | c :: rest =>
    (p1.isPrefixOf (c :: rest) &&
      occursIn p2 (((c :: rest).drop p1.length).takeWhile (fun ch => !(ch.val == 10)))) ||
    seqAux p1 p2 rest

/-- JS regex test for `p1.*p2` as substrings of `q`. -/
def seqMatch2 (q p1 p2 : String) : Bool :=
  seqAux p1.data p2.data q.data

/-- `q` contains one of the literal alternatives. -/
def containsAny (q : String) (ps : List String) : Bool :=
  ps.any fun p => jsIncludes q p

/-- `q` starts with `p` followed by a JS word boundary (`^p\b`). -/
def startsWithWordBoundary (q p : String) : Bool :=
  p.data.isPrefixOf q.data &&
    (match q.data.drop p.data.length with
     | [] => true
     | c :: _ => !(wordChar c))

/-- An occurrence of `p` with a word boundary on both sides (`\bp\b`); the
flag carries whether the previous character was a word character. -/
def scanBoundedAux (p : List Char) : Bool → List Char → Bool
  | _, [] => false
  | prevW, c :: rest =>
    (!prevW && p.isPrefixOf (c :: rest) &&
      (match (c :: rest).drop p.length with
       | [] => true
       | d :: _ => !(wordChar d))) ||
    scanBoundedAux p (wordChar c) rest

/-- An occurrence of `p` followed by whitespace or the end (`p(\s|$)`). -/
def scanFollowedBy (p : List Char) : List Char → Bool
  | [] => false
  | c :: rest =>
    (p.isPrefixOf (c :: rest) &&
      (match (c :: rest).drop p.length with
       | [] => true
       | d :: _ => isJsSpace d)) ||
    scanFollowedBy p rest

/-- `t` ends in `p`. -/
def endsIn (t p : List Char) : Bool :=
  p.reverse.isPrefixOf t.reverse

/-- `/^(help|what can you do|hi|hello)\b/`. -/
def helpTrigger (q : String) : Bool :=
  ["help", "what can you do", "hi", "hello"].any (startsWithWordBoundary q)

/-- `/just opened|spot (just )?opened|opened up/`. -/
def justOpenedTrigger (q : String) : Bool :=
  containsAny q ["just opened", "spot just opened", "spot opened", "opened up"]

/-- `/why does the map say full|map say full but I see empty|say full but.*empty|empty spot/`
(the second alternative keeps the source's capital I, so it can never match
the lower-cased question). -/
def mapSaysFullTrigger (q : String) : Bool :=
  containsAny q ["why does the map say full", "map say full but I see empty"] ||
    seqMatch2 q "say full but" "empty" || jsIncludes q "empty spot"

/-- `/usually busy|best time to find|get worse or better|next hour|prediction|predict/`. -/
def predictionTrigger (q : String) : Bool :=
  containsAny q ["usually busy", "best time to find", "get worse or better", "next hour", "prediction", "predict"]

/-- `/filling up|emptying|emptying out|trend/`. -/
def trendTrigger (q : String) : Bool :=
  containsAny q ["filling up", "emptying", "emptying out", "trend"]

/-- `/restaurants on princess|princess street.*restaurant|eating on princess/`. -/
def restaurantsTrigger (q : String) : Bool :=
  jsIncludes q "restaurants on princess" || seqMatch2 q "princess street" "restaurant" ||
    jsIncludes q "eating on princess"

/-- `/closest (available )?parking|closest (to )?me|nearest|parking (closest )?to me/`,
with the optional groups expanded into literal alternatives. -/
def closestTrigger (q : String) : Bool :=
  containsAny q
    ["closest available parking", "closest parking", "closest to me", "closest me",
     "nearest", "parking closest to me", "parking to me"]

/-- `/which (street|lot) has the most|most available|highest availability/`. -/
def mostAvailableTrigger (q : String) : Bool :=
  containsAny q ["which street has the most", "which lot has the most", "most available", "highest availability"]

/-- `/what streets (should I )?check|if .* (is )?full|lot (is )?full.*(where|what|check)/`
(the first alternative keeps the source's capital I). -/
def checkStreetsTrigger (q : String) : Bool :=
  containsAny q ["what streets check", "what streets should I check"] ||
    seqMatch2 q "if " " full" || seqMatch2 q "if " " is full" ||
    (["lot full", "lot is full"].any fun p1 =>
      ["where", "what", "check"].any fun p2 => seqMatch2 q p1 p2)

/-- `/\bparking lot [a-c]\b|lot [a-c](\s|$)/`. -/
def lotLetterTrigger (q : String) : Bool :=
  (["parking lot a", "parking lot b", "parking lot c"].any fun p =>
    scanBoundedAux p.data false q.data) ||
  (["lot a", "lot b", "lot c"].any fun p => scanFollowedBy p.data q.data)

/-- `/how many (parking )?spots (are )?available|how many (spots )?(are )?(there )?(on|in)/`,
optional groups expanded. -/
def howManyTrigger (q : String) : Bool :=
  containsAny q
    ["how many parking spots are available", "how many parking spots available",
     "how many spots are available", "how many spots available",
     "how many spots are there on", "how many spots are there in",
     "how many spots are on", "how many spots are in",
     "how many spots there on", "how many spots there in",
     "how many spots on", "how many spots in",
     "how many are there on", "how many are there in",
     "how many are on", "how many are in",
     "how many there on", "how many there in",
     "how many on", "how many in"]

/-- `/is .* full\???\s*$|full\??\s*$/`: the question (after trailing
whitespace) ends in `full` or `full?`; the first alternative is subsumed by
the second. -/
def isFullTrigger (q : String) : Bool :=
  let t := (q.data.reverse.dropWhile isJsSpace).reverse
  endsIn t "full".data || endsIn t "full?".data

/-- `/free|no cost|don't pay|no pay|complimentary/`. -/
def askFreeTrigger (q : String) : Bool :=
  containsAny q ["free", "no cost", "don't pay", "no pay", "complimentary"]

/-- `/available|any spots?|open spots?|vacant|(is there )?any( space)?|spots? (left|open)|(any )?space/`,
optional groups reduced to their minimal literal cores. -/
def askAvailableTrigger (q : String) : Bool :=
  containsAny q
    ["available", "any spot", "open spot", "vacant", "any",
     "spot left", "spots left", "spot open", "spots open", "space"]

/-- `/full|no space|no spots?|any room/`. -/
def askFullTrigger (q : String) : Bool :=
  containsAny q ["full", "no space", "no spot", "any room"]

/-- `/rate|price|cost|how much|pay|fee/`. -/
def priceTrigger (q : String) : Bool :=
  containsAny q ["rate", "price", "cost", "how much", "pay", "fee"]

/-- `/how many total spots|total spots (are )?(in|at)/`. -/
def totalSpotsQuery (q : String) : Bool :=
  containsAny q ["how many total spots", "total spots are in", "total spots are at", "total spots in", "total spots at"]

/-- `/how many cars|cars (are )?currently|currently (in|parked)/`. -/
def carsQuery (q : String) : Bool :=
  containsAny q ["how many cars", "cars are currently", "cars currently", "currently in", "currently parked"]

/-- `/spots (left|remaining)|how many (spots )?left/`. -/
def spotsLeftQuery (q : String) : Bool :=
  containsAny q ["spots left", "spots remaining", "how many spots left", "how many left"]

/-- `/what percentage|percent(age)? (is )?full|% full/`. -/
def percentQuery (q : String) : Bool :=
  containsAny q ["what percentage", "percentage is full", "percentage full", "percent is full", "percent full", "% full"]

/-- The landmark branch body (parkingChat.ts lines 120-134). -/
def landmarkAnswer (distFn : DistFn) (locations : List ParkingLocation) (now : Instant)
    (key : String) (lm : Landmark) : String :=
  let near := filterByLandmark distFn locations key
  let withSpots := near.filter fun l => isLocationOpen l now && decide (l.availableSpots > 0)
  if withSpots.length > 0 then
    let list := joinSep "; " ((withSpots.take 6).map fun l =>
      l.name ++ " (" ++ toString l.availableSpots ++ " available)")
    "Near " ++ lm.label ++ ": " ++ list ++ ". See the map for directions."
  else if near.length > 0 then
    let names := joinSep ", " ((near.take 5).map fun l => l.name)
    "Near " ++ lm.label ++ " we have: " ++ names ++
      ". Right now none show available spots—check the map for live updates."
  else
    "We don’t have parking data right at " ++ lm.label ++
      ". Try searching an address on the map to see nearby options."

/-- The `for (const key of Object.keys(LANDMARKS))` loop: first landmark key
contained in the question together with a proximity/parking trigger word
answers; otherwise fall through. -/
def landmarkStepAux (distFn : DistFn) (locations : List ParkingLocation) (now : Instant)
    (q : String) : List (String × Landmark) → Option String
  | [] => none
  | (key, lm) :: rest =>
    if jsIncludes q key &&
        (jsIncludes q "near" || jsIncludes q "close" || jsIncludes q "parking" || jsIncludes q "show") then
      some (landmarkAnswer distFn locations now key lm)
    else landmarkStepAux distFn locations now q rest

/-- The landmark loop over the whole lexicon. -/
def landmarkStep (distFn : DistFn) (locations : List ParkingLocation) (now : Instant)
    (q : String) : Option String :=
  landmarkStepAux distFn locations now q LANDMARKS

/-- The restaurants-on-Princess branch (parkingChat.ts lines 137-146); it
only answers when a Princess location exists, otherwise control falls
through. -/
def restaurantsStep (locations : List ParkingLocation) (now : Instant) (q : String) :
    Option String :=
  if restaurantsTrigger q then
    match locations.filter (fun l => jsIncludes (jsToLower l.name) "princess") with
    | [] => none
    | p :: _ =>
      let status :=
        if isLocationOpen p now then
          toString p.availableSpots ++ " of " ++ toString p.totalSpots ++
            " spots available on Princess Street."
        else "Princess Street parking is currently outside paid hours."
      some (status ++ " Street parking runs along Princess—check the map for the exact stretch.")
  else none

/-- The closest-available branch with a known user location
(parkingChat.ts lines 150-164). -/
def closestAnswer (distFn : DistFn) (locations : List ParkingLocation) (now : Instant)
    (u : ChatUserLocation) : String :=
  let withSpots := locations.filter fun l => isLocationOpen l now && decide (l.availableSpots > 0)
  if withSpots.length == 0 then
    "No spots are available right now near you. Try expanding your search on the map or another time."
  else
    let sorted := insertionSort
      (fun a b => decide (distFn u.lat u.lng a.lat a.lng ≤ distFn u.lat u.lng b.lat b.lng))
      withSpots
    match sorted with
    | [] => ""
    | top :: _ =>
      let d := jsRound (distFn u.lat u.lng top.lat top.lng)
      "Closest available: " ++ top.name ++ " (" ++ toString top.availableSpots ++
        " spots), about " ++ toString d ++ " m away. Check the map for the exact location."

/-- The most-available branch (parkingChat.ts lines 170-184). -/
def mostAvailableAnswer (locations : List ParkingLocation) (now : Instant) : String :=
  let streets := locations.filter fun l =>
    l.type == LocType.street && isLocationOpen l now && decide (l.availableSpots > 0)
  let bySpots := insertionSort (fun a b => decide (b.availableSpots ≤ a.availableSpots)) streets
  match bySpots with
  | top :: _ =>
    top.name ++ " has the most right now: " ++ toString top.availableSpots ++ " spots available."
  | [] =>
    let lotsWithSpots := locations.filter fun l =>
      l.type == LocType.lot && isLocationOpen l now && decide (l.availableSpots > 0)
    let lotBySpots := insertionSort (fun a b => decide (b.availableSpots ≤ a.availableSpots)) lotsWithSpots
    match lotBySpots with
    | top :: _ =>
      top.name ++ " has the most available: " ++ toString top.availableSpots ++ " spots."
    | [] => "No streets or lots with available spots right now. Check the map for updates."

/-- The what-streets-if-full branch (parkingChat.ts lines 187-200). -/
def checkStreetsAnswer (locations : List ParkingLocation) (now : Instant) (q : String) : String :=
  let fm := findLocationsByQuestion locations q
  let full := fm.1.filter fun l => isLocationOpen l now && decide (l.availableSpots = 0)
  match full with
  | f0 :: _ =>
    let withSpots := locations.filter fun l =>
      !(l.id == f0.id) && isLocationOpen l now && decide (l.availableSpots > 0)
    let nearby := joinSep ", " ((withSpots.take 6).map fun l => l.name)
    "If " ++ f0.name ++ " is full, try: " ++ nearby ++ ". See the map for distances."
  | [] =>
    let withSpots := locations.filter fun l => isLocationOpen l now && decide (l.availableSpots > 0)
    let names := joinSep ", " ((withSpots.take 6).map fun l => l.name)
    "Places with spots right now: " ++ names ++ "."

/-- The how-many-spots branch body (parkingChat.ts lines 210-216);
only called with a non-empty `filtered`. -/
def howManyAnswer (now : Instant) (filtered : List ParkingLocation) : String :=
  match filtered with
  | [] => ""
  | loc :: _ =>
    if !isLocationOpen loc now then
      loc.name ++ " is currently closed. " ++ getHoursDisplay loc now ++ "."
    else
      "Right now there are " ++ toString loc.availableSpots ++ " spot" ++
        (if loc.availableSpots ≠ 1 then "s" else "") ++ " available on " ++ loc.name ++
        " (" ++ toString loc.totalSpots ++ " total)."

/-- The is-it-full branch body (parkingChat.ts lines 219-228). -/
def isFullAnswer (now : Instant) (filtered : List ParkingLocation) : String :=
  match filtered with
  | [] => ""
  | loc :: _ =>
    if !isLocationOpen loc now then
      loc.name ++ " is currently closed. " ++ getHoursDisplay loc now ++ "."
    else if loc.availableSpots = 0 then
      "Yes, " ++ loc.name ++ " is full right now (" ++ toString loc.totalSpots ++
        " spots, 0 available)."
    else
      "No. " ++ loc.name ++ " has " ++ toString loc.availableSpots ++ " spot" ++
        (if loc.availableSpots ≠ 1 then "s" else "") ++ " available."

/-- The lot-statistics group (parkingChat.ts lines 231-259): answers one of
four sub-questions when the first filtered location is a lot (or the
question mentions lot/garage), otherwise falls through. -/
def lotStatsStep (now : Instant) (q : String) (filtered : List ParkingLocation) :
    Option String :=
  match filtered with
  | [] => none
  | loc :: _ =>
    if loc.type == LocType.lot || jsIncludes q "lot" || jsIncludes q "garage" then
      let total := loc.totalSpots
      let available := loc.availableSpots
      let occupied := total - available
      if totalSpotsQuery q then
        some (loc.name ++ " has " ++ toString total ++ " total spots.")
      else if carsQuery q then
        if !isLocationOpen loc now then
          some (loc.name ++ " is closed. We don’t track car count when closed.")
        else
          some ("There are " ++ toString occupied ++ " cars currently in " ++ loc.name ++
            " (" ++ toString available ++ " spots left).")
      else if spotsLeftQuery q then
        if !isLocationOpen loc now then
          some (loc.name ++ " is currently closed. " ++ getHoursDisplay loc now ++ ".")
        else
          some ("There are " ++ toString available ++ " spots left in " ++ loc.name ++
            " (out of " ++ toString total ++ ").")
      else if percentQuery q then
        if !isLocationOpen loc now then
          some (loc.name ++ " is closed. " ++ getHoursDisplay loc now ++ ".")
        else
          let pct := if total > 0 then jsRound ((occupied : ℚ) / (total : ℚ) * 100) else 0
          some (loc.name ++ " is " ++ toString pct ++ "% full (" ++ toString occupied ++
            " of " ++ toString total ++ " spots taken).")
      else none
    else none

/-- A location currently counts as free: open and its current tier's rate is
exactly 0 (parkingChat.ts lines 264-268). -/
def isFreeNowPred (now : Instant) (loc : ParkingLocation) : Bool :=
  isLocationOpen loc now &&
    (match getCurrentPrice loc now with
     | some p => decide (p.rate = 0)
     | none => false)

/-- The free-parking branch (parkingChat.ts lines 262-291). -/
def freeAnswer (locations : List ParkingLocation) (now : Instant)
    (filtered : List ParkingLocation) : String :=
  let freeNow := filtered.filter (isFreeNowPred now)
  if freeNow.length > 0 then
    "Yes. Right now these have free parking: " ++ joinSep ", " (freeNow.map fun l => l.name) ++ "."
  else
    let dayNames := ["Sunday", "Monday", "Tuesday", "Wednesday", "Thursday", "Friday", "Saturday"]
    let today := dayNames.getD now.day "undefined"
    let paid := "Right now it’s paid on " ++ today ++
      ". Many downtown streets (Princess, King, Brock, Division, Ontario, Wellington, Clergy) are free on Sundays."
    match filtered with
    | first :: _ =>
      (match getCurrentPrice first now with
       | some p => if p.rate = 0 then "Yes, " ++ first.name ++ " is free right now." else paid
       | none => paid)
    | [] =>
      let allFreeNow := locations.filter (isFreeNowPred now)
      if allFreeNow.length > 0 then
        "Yes. Free right now: " ++ joinSep ", " ((allFreeNow.take 8).map fun l => l.name) ++ "."
      else "No free street parking right now. Many downtown streets are free on Sundays."

/-- The general availability branch (parkingChat.ts lines 296-317). -/
def availabilityAnswer (now : Instant) (q : String) (filtered : List ParkingLocation) : String :=
  let openWithSpots := filtered.filter fun l => isLocationOpen l now && decide (l.availableSpots > 0)
  let full := filtered.filter fun l => isLocationOpen l now && decide (l.availableSpots = 0)
  if askFullTrigger q && full.length > 0 then
    "These are full: " ++
      joinSep ", " (full.map fun l =>
        l.name ++ " (" ++ toString l.availableSpots ++ "/" ++ toString l.totalSpots ++ ")") ++ "."
  else if openWithSpots.length > 0 then
    "Yes. " ++ joinSep ". " (openWithSpots.map fun l =>
      l.name ++ ": " ++ toString l.availableSpots ++ " available")
  else if filtered.length > 0 then
    "Right now there are no spots available at " ++ joinSep ", " (filtered.map fun l => l.name) ++
      ". Try the map for other options."
  else
    "I couldn’t find that street or lot. Try Princess, King, Brock, Ontario, or Beamish Munro."

/-- The rate/price branch body (parkingChat.ts lines 320-326). -/
def priceAnswer (now : Instant) (filtered : List ParkingLocation) : String :=
  match filtered with
  | [] => ""
  | loc :: _ =>
    let hours := getHoursDisplay loc now
    match getCurrentPrice loc now with
    | some p => loc.name ++ ": " ++ p.label ++ ". Hours: " ++ hours ++ "."
    | none => loc.name ++ ": no casual rate (permit or closed). Hours: " ++ hours ++ "."

/-- The generic one-location summary (parkingChat.ts lines 329-338). -/
def genericAnswer (now : Instant) (filtered : List ParkingLocation) : String :=
  match filtered with
  | [] => ""
  | loc :: _ =>
    let price := getCurrentPrice loc now
    let status :=
      if isLocationOpen loc now then
        toString loc.availableSpots ++ " of " ++ toString loc.totalSpots ++ " spots available"
      else "currently closed"
    let rate := match price with
      | some p => " " ++ p.label ++ "."
      | none => ""
    loc.name ++ ": " ++ status ++ "." ++ rate ++ " " ++ getHoursDisplay loc now ++ "."

/-- parkingChat.ts `answerParkingQuestion`: the ordered intent decision
list. -/
def answerParkingQuestion (distFn : DistFn) (locations : List ParkingLocation)
    (question : String) (now : Instant) (userLocation : Option ChatUserLocation) : String :=
  let q := jsToLower (jsTrim question)
  if q == "" then
    "Ask me about parking in downtown Kingston! Try: \"How many spots on Princess Street?\" or \"Is there parking near Queen's University?\""
  else if helpTrigger q || q == "?" then
    "I can answer:\n• \"How many spots on Princess Street?\" / \"Is King Street full?\"\n• \"Any free street parking downtown?\" / \"Which street has the most available?\"\n• \"Where is the closest available parking to me?\" (search an address first)\n• \"How many spots in the Chown garage?\" / \"What % of Beamish Munro is full?\"\n• \"Parking near Queen's University?\" / \"Near the Waterfront?\"\n• \"What streets if the lot is full?\"\n• \"Why does the map say full but I see an empty spot?\""
  else if justOpenedTrigger q then
    "We update every few seconds from sensors. If a spot just opened, the map will show it shortly. Try refreshing or wait a few seconds."
  else if mapSaysFullTrigger q then
    "Sensors can lag by a few seconds, or someone may have just left. The map updates every 5–10 seconds. If you see an empty spot, it may have opened after the last update—check the map again for the latest."
  else if predictionTrigger q then
    "We don’t have historical patterns or predictions—only live availability. Mornings and weekends are often easier downtown. Use the map for current spots."
  else if trendTrigger q then
    "We don’t track whether a lot is filling up or emptying in real time—only how many spots are available right now. Check the map for current counts."
  else
    match landmarkStep distFn locations now q with
    | some ans => ans
    | none =>
      match restaurantsStep locations now q with
      | some ans => ans
      | none =>
        if closestTrigger q then
          match userLocation with
          | some u => closestAnswer distFn locations now u
          | none =>
            "Search for an address on the map first—then I can tell you the closest available parking to that spot."
        else if mostAvailableTrigger q then mostAvailableAnswer locations now
        else if checkStreetsTrigger q then checkStreetsAnswer locations now q
        else
          let fm := findLocationsByQuestion locations q
          let filtered := fm.1
          let matchedName := fm.2
          if lotLetterTrigger q && filtered.length == 0 then
            "We use actual names, not letters. Try: \"Beamish Munro Hall\", \"Chown Memorial Garage\", \"Waterfront Lot\", or \"Hanson Garage.\""
          else if howManyTrigger q && filtered.length > 0 then howManyAnswer now filtered
          else if isFullTrigger q && filtered.length > 0 then isFullAnswer now filtered
          else
            match lotStatsStep now q filtered with
            | some ans => ans
            | none =>
              if askFreeTrigger q then freeAnswer locations now filtered
              else if askAvailableTrigger q || askFullTrigger q then
                availabilityAnswer now q filtered
              else if priceTrigger q && filtered.length > 0 then priceAnswer now filtered
              else if matchedName.isSome && filtered.length > 0 then genericAnswer now filtered
              else if filtered.length == 0 && matchedName.isSome then
                "I don’t have that street or lot. We cover downtown Kingston—try Princess, King, Brock, Ontario, Beamish Munro, or Chown Garage."
              else
                "Ask something like: \"How many spots on Princess?\" or \"Is there parking near Queen's?\" I use live data from the map."

/-- A demo metric for concrete evaluations (any `DistFn` will do; the engine
is proved generic in the metric): squared Euclidean distance. -/
def sqDist : DistFn := fun lat1 lng1 lat2 lng2 =>
  (lat2 - lat1) * (lat2 - lat1) + (lng2 - lng1) * (lng2 - lng1)

/-- A pay lot whose single operating-hours window is Monday 18:00-06:00
(the spec's midnight-wrap fixture). -/
def overnightMonFixture : ParkingLocation :=
  { id := "overnight-demo", name := "Overnight Demo Lot", type := LocType.lot,
    totalSpots := 10, availableSpots := 5, lat := 44, lng := -76,
    operatingHours := some [⟨[1], "18:00", "06:00"⟩] }

/-- Monday 23:00. -/
def monday2300 : Instant := ⟨1, 23, 0⟩

/-- Monday 05:00. -/
def monday0500 : Instant := ⟨1, 5, 0⟩

/-- Monday 10:00. -/
def monday1000 : Instant := ⟨1, 10, 0⟩

/-- Monday 12:00. -/
def monday1200 : Instant := ⟨1, 12, 0⟩

/-- A tier as in the seed data: Monday-Saturday 09:30-17:30. -/
def overlapTierA : PriceTier :=
  ⟨some [1, 2, 3, 4, 5, 6], "09:30", "17:30", 2, PriceUnit.hour, none⟩

/-- A deliberately overlapping all-day tier listed second. -/
def overlapTierB : PriceTier :=
  ⟨none, "00:00", "24:00", 3, PriceUnit.hour, none⟩

/-- A lot with deliberately overlapping price tiers (both match a Monday
morning instant). -/
def overlapFixture : ParkingLocation :=
  { id := "overlap-demo", name := "Overlap Demo Lot", type := LocType.lot,
    totalSpots := 20, availableSpots := 7, lat := 44, lng := -76,
    pricing := some ⟨false, [overlapTierA, overlapTierB]⟩ }

/-- The sensor-backed street of the seed data, reduced to the fields the
sensor merge reads. -/
def clergyFixture : ParkingLocation :=
  { id := "clergy-st-w", name := "Clergy St W", type := LocType.street,
    totalSpots := 6, availableSpots := 2, lat := 44.228894698301386, lng := -76.49201753033214 }

/-- The sensor-backed lot of the seed data. -/
def beamishFixture : ParkingLocation :=
  { id := "beamish-munro-hall", name := "Beamish Munro Hall", type := LocType.lot,
    totalSpots := 3, availableSpots := 3, lat := 44.228699442682995, lng := -76.49150134966044 }

/-- A two-entry catalog for concrete sensor-merge evaluations. -/
def demoCatalog : List ParkingLocation := [clergyFixture, beamishFixture]

/-- A street with a straight two-point path and four spots. -/
def demoStreet : ParkingLocation :=
  { id := "demo-street", name := "Demo Street", type := LocType.street,
    totalSpots := 4, availableSpots := 2, lat := 0, lng := 0,
    path := some [(0, 0), (0, 1)] }

/-- A street whose path has a single point (degenerate). -/
def onePointStreet : ParkingLocation :=
  { id := "one-point-street", name := "One Point Street", type := LocType.street,
    totalSpots := 4, availableSpots := 1, lat := 0, lng := 0,
    path := some [(0, 0)] }

/-- The specification-side matching condition for a price tier at an
instant: the day lies in the tier's day set (defaulting to all seven days)
and the minutes lie in `[start, end)` after the midnight-wrap adjustment. -/
def TierApplies (day mins : Nat) (tier : PriceTier) : Prop :=
  day ∈ tier.days.getD [0, 1, 2, 3, 4, 5, 6] ∧
    parseTime tier.startTime ≤ mins ∧
    mins < (if parseTime tier.endTime < parseTime tier.startTime then
              parseTime tier.endTime + 24 * 60
            else parseTime tier.endTime)

instance (day mins : Nat) (tier : PriceTier) : Decidable (TierApplies day mins tier) := by
  unfold TierApplies
  infer_instance

lemma contains_iff_mem (l : List Nat) (a : Nat) : l.contains a = true ↔ a ∈ l := by
  simp [List.contains]

lemma windowMatches_iff (day mins : Nat) (h : ParkingHours) :
    windowMatches day mins h = true ↔
      (day ∈ h.days ∧ parseTime h.start ≤ mins ∧
        mins < (if parseTime h.endTime < parseTime h.start then parseTime h.endTime + 24 * 60
                else parseTime h.endTime)) := by
  unfold windowMatches
  by_cases hc : h.days.contains day
  · simp [hc, (contains_iff_mem h.days day).mp hc]
  · have hmem : ¬ day ∈ h.days := fun hm => hc ((contains_iff_mem h.days day).mpr hm)
    simp [hc, hmem]

/-- C1: `isLocationOpen` is true when the location's kind is street; true
when it has no operating-hours windows; and otherwise true iff some window
contains the instant's day-of-week and its minutes-of-day lie in
`[start, end)`, where `end` is increased by 24 hours before the comparison
whenever `end < start`. -/
theorem isLocationOpen_iff (loc : ParkingLocation) (d : Instant) :
    isLocationOpen loc d = true ↔
      (loc.type = LocType.street ∨ loc.operatingHours.getD [] = [] ∨
        ∃ h ∈ loc.operatingHours.getD [], d.day ∈ h.days ∧
          parseTime h.start ≤ minsOfDay d ∧
          minsOfDay d <
            (if parseTime h.endTime < parseTime h.start then parseTime h.endTime + 24 * 60
             else parseTime h.endTime)) := by
  unfold isLocationOpen
  by_cases ht : loc.type = LocType.street
  · simp [ht]
  · simp only [if_neg ht]
    cases hO : loc.operatingHours with
    | none => simp [ht]
    | some hs =>
      by_cases he : hs.isEmpty = true
      · have h0 : hs = [] := by simpa using he
        simp [ht, h0]
      · have hne : ¬ hs = [] := by simpa using he
        simp [ht, hne, he, List.any_eq_true, windowMatches_iff]

/-- C2: the midnight-wrap fixture (single window Monday 18:00-06:00)
evaluated by the code: open at Monday 23:00, but closed at Monday 05:00 —
the wrapped end never matches an early-morning instant, because
`mins >= start` cannot hold before 18:00. -/
theorem overnight_window_monday :
    isLocationOpen overnightMonFixture monday2300 = true ∧
      isLocationOpen overnightMonFixture monday0500 = false :=
  ⟨rfl, rfl⟩

lemma tierMatches_iff (day mins : Nat) (tier : PriceTier) :
    tierMatches day mins tier = true ↔ TierApplies day mins tier := by
  unfold tierMatches TierApplies
  by_cases hc : (tier.days.getD [0, 1, 2, 3, 4, 5, 6]).contains day
  · simp [hc, (contains_iff_mem _ day).mp hc]
  · have hmem : ¬ day ∈ tier.days.getD [0, 1, 2, 3, 4, 5, 6] :=
      fun hm => hc ((contains_iff_mem _ day).mpr hm)
    simp [hc, hmem]

lemma findFirstMatch (f : α → Bool) (pre : List α) (t : α) (post : List α)
    (hpre : ∀ x ∈ pre, f x = false) (ht : f t = true) :
    (pre ++ t :: post).find? f = some t := by
  induction pre with
  | nil => simp [List.find?, ht]
  | cons a rest ih =>
    have ha := hpre a (by simp)
    rw [List.cons_append, List.find?]
    simp only [ha]
    exact ih fun x hx => hpre x (by simp [hx])

/-- C3: `getCurrentPrice` returns null exactly when pricing is absent (or
has no tiers), `permitOnly` is set, or no tier matches the instant; when a
tier matches, the result is built from the earliest matching tier in the
list (first match wins). -/
theorem getCurrentPrice_spec (loc : ParkingLocation) (d : Instant) :
    (getCurrentPrice loc d = none ↔
      loc.pricing = none ∨
        ∃ p, loc.pricing = some p ∧
          (p.tiers = [] ∨ p.permitOnly = true ∨
            ∀ t ∈ p.tiers, ¬ TierApplies d.day (minsOfDay d) t)) ∧
    (∀ p pre t post, loc.pricing = some p → p.permitOnly = false →
      p.tiers = pre ++ t :: post →
      (∀ t' ∈ pre, ¬ TierApplies d.day (minsOfDay d) t') →
      TierApplies d.day (minsOfDay d) t →
      getCurrentPrice loc d = some (tierResult t)) := by
  constructor
  · cases hp : loc.pricing with
    | none => simp [getCurrentPrice, hp]
    | some p =>
      simp only [getCurrentPrice, hp]
      by_cases hcond : (p.tiers.isEmpty || p.permitOnly) = true
      · rw [if_pos hcond]
        constructor
        · intro _
          refine Or.inr ⟨p, rfl, ?_⟩
          rcases Bool.or_eq_true_iff.mp hcond with h | h
          · exact Or.inl (by simpa using h)
          · exact Or.inr (Or.inl h)
        · intro _
          rfl
      · rw [if_neg hcond]
        have hcond' := hcond
        rw [Bool.or_eq_true_iff] at hcond'
        push_neg at hcond'
        obtain ⟨hemp, hperm⟩ := hcond'
        have hne : p.tiers ≠ [] := by
          intro h0
          exact hemp (by simp [h0])
        rw [Option.map_eq_none', List.find?_eq_none]
        constructor
        · intro hall
          refine Or.inr ⟨p, rfl, Or.inr (Or.inr fun t htm hap => ?_)⟩
          exact hall t htm ((tierMatches_iff d.day (minsOfDay d) t).mpr hap)
        · rintro (h | ⟨p', hp', hcase⟩)
          · exact absurd h (by simp)
          · have hpp : p = p' := by
              injection hp'
            subst hpp
            rcases hcase with h0 | hperm' | hnone
            · exact absurd h0 hne
            · exact absurd hperm' hperm
            · intro t htm htrue
              exact hnone t htm ((tierMatches_iff d.day (minsOfDay d) t).mp htrue)
  · intro p pre t post hp hperm htiers hpre ht
    simp only [getCurrentPrice, hp]
    have hne : p.tiers.isEmpty = false := by
      rw [htiers]
      cases pre <;> rfl
    rw [if_neg (by simp [hne, hperm])]
    rw [htiers, findFirstMatch _ pre t post
      (fun x hx => eq_false_of_ne_true fun habs =>
        hpre x hx ((tierMatches_iff d.day (minsOfDay d) x).mp habs))
      ((tierMatches_iff d.day (minsOfDay d) t).mpr ht)]
    rfl

/-- C3 witness: with two deliberately overlapping tiers both matching
Monday 10:00, the earlier tier in the list is selected. -/
theorem getCurrentPrice_spec_example :
    getCurrentPrice overlapFixture monday1000 = some (tierResult overlapTierA) :=
  (getCurrentPrice_spec overlapFixture monday1000).2
    ⟨false, [overlapTierA, overlapTierB]⟩ [] overlapTierA [overlapTierB]
    rfl rfl rfl (by simp) (by decide)

lemma clamp_idem (T x : Int) : max 0 (min T (max 0 (min T x))) = max 0 (min T x) := by
  rcases le_total x 0 with h | h <;> rcases le_total T 0 with h2 | h2 <;>
    rcases le_total x T with h3 | h3 <;>
    simp [min_def, max_def] <;> split_ifs <;> omega

/-- C4: when the id is present and every entry carrying it has capacity
`total`, applying a sensor observation `x` makes every entry with that id
read `clamp(x, 0, total) = max 0 (min total x)`, such an entry exists to be
read, and applying the same update a second time changes nothing. -/
theorem applySensorUpdate_spec (catalog : List ParkingLocation) (lotId : String) (x total : Int)
    (hmem : ∃ loc ∈ catalog, loc.id = lotId)
    (htotal : ∀ loc ∈ catalog, loc.id = lotId → loc.totalSpots = total) :
    (∀ loc ∈ applySensorUpdate catalog lotId x, loc.id = lotId →
      loc.availableSpots = max 0 (min total x)) ∧
    (∃ loc ∈ applySensorUpdate catalog lotId x, loc.id = lotId) ∧
    applySensorUpdate (applySensorUpdate catalog lotId x) lotId x =
      applySensorUpdate catalog lotId x := by
  refine ⟨?_, ?_, ?_⟩
  · intro loc hloc hid
    rw [applySensorUpdate, List.mem_map] at hloc
    obtain ⟨a, ha, hfa⟩ := hloc
    by_cases haid : a.id = lotId
    · rw [if_pos haid] at hfa
      rw [← hfa]
      simp [htotal a ha haid]
    · rw [if_neg haid] at hfa
      rw [← hfa] at hid
      exact absurd hid haid
  · obtain ⟨a, ha, haid⟩ := hmem
    refine ⟨if a.id = lotId then
        { a with availableSpots := max 0 (min a.totalSpots x) } else a, ?_, ?_⟩
    · rw [applySensorUpdate, List.mem_map]
      exact ⟨a, ha, rfl⟩
    · rw [if_pos haid]
      exact haid
  · rw [applySensorUpdate, applySensorUpdate, List.map_map]
    apply List.map_congr_left
    intro a _
    by_cases haid : a.id = lotId
    · simp [haid, clamp_idem]
    · simp [haid]

/-- C4 witness: observation 50 on `clergy-st-w` (capacity 6) reads back as
6, and re-applying it is a no-op. -/
theorem applySensorUpdate_spec_example :
    (∀ loc ∈ applySensorUpdate demoCatalog "clergy-st-w" 50, loc.id = "clergy-st-w" →
      loc.availableSpots = max 0 (min 6 50)) ∧
    (∃ loc ∈ applySensorUpdate demoCatalog "clergy-st-w" 50, loc.id = "clergy-st-w") ∧
    applySensorUpdate (applySensorUpdate demoCatalog "clergy-st-w" 50) "clergy-st-w" 50 =
      applySensorUpdate demoCatalog "clergy-st-w" 50 :=
  applySensorUpdate_spec demoCatalog "clergy-st-w" 50 6 (by decide) (by decide)

/-- C7: a sensor observation whose lotId matches no catalog entry is a
no-op: the catalog is returned entry-for-entry unchanged. -/
theorem applySensorUpdate_unknown_id (catalog : List ParkingLocation) (lotId : String) (x : Int)
    (h : ∀ loc ∈ catalog, loc.id ≠ lotId) :
    applySensorUpdate catalog lotId x = catalog := by
  rw [applySensorUpdate]
  conv_rhs => rw [← List.map_id catalog]
  apply List.map_congr_left
  intro a ha
  rw [if_neg (h a ha)]
  rfl

/-- C7 witness: an unknown id leaves the two-entry demo catalog exactly as
it was. -/
theorem applySensorUpdate_unknown_id_example :
    applySensorUpdate demoCatalog "ghost-lot" 4 = demoCatalog :=
  applySensorUpdate_unknown_id demoCatalog "ghost-lot" 4 (by decide)

/-- C5: for counts with `total > 0`, the classifier returns Full exactly for
zero availability, Limited exactly when the ratio lies in `(0, 0.20]`, and
Available exactly when the ratio exceeds 0.20. -/
theorem getStatusColor_spec (a N : ℕ) (hN : 0 < N) :
    (getStatusColor (a : ℚ) (N : ℚ) = StatusColor.full ↔ a = 0) ∧
    (getStatusColor (a : ℚ) (N : ℚ) = StatusColor.low ↔
      (0 < (a : ℚ) / (N : ℚ) ∧ (a : ℚ) / (N : ℚ) ≤ 20 / 100)) ∧
    (getStatusColor (a : ℚ) (N : ℚ) = StatusColor.available ↔
      20 / 100 < (a : ℚ) / (N : ℚ)) := by
  have hN' : (0 : ℚ) < (N : ℚ) := by exact_mod_cast hN
  unfold getStatusColor
  by_cases ha : (a : ℚ) = 0
  · have ha0 : a = 0 := by exact_mod_cast ha
    rw [if_pos ha]
    refine ⟨by simp [ha0], ?_, ?_⟩
    · simp only [ha, zero_div]
      constructor
      · intro h
        exact absurd h (by simp)
      · intro h
        exact absurd h.1 (lt_irrefl 0)
    · simp only [ha, zero_div]
      constructor
      · intro h
        exact absurd h (by simp)
      · intro h
        exact absurd h (by norm_num)
  · have haN : 0 < a := Nat.pos_of_ne_zero (by exact_mod_cast ha)
    have haQ : (0 : ℚ) < (a : ℚ) := by exact_mod_cast haN
    have hr : 0 < (a : ℚ) / (N : ℚ) := div_pos haQ hN'
    rw [if_neg ha]
    by_cases hle : (a : ℚ) / (N : ℚ) * 100 ≤ 20
    · rw [if_pos hle]
      refine ⟨?_, ?_, ?_⟩
      · constructor
        · intro h
          exact absurd h (by simp)
        · intro h
          exact absurd h (by omega)
      · constructor
        · intro _
          exact ⟨hr, by linarith⟩
        · intro _
          rfl
      · constructor
        · intro h
          exact absurd h (by simp)
        · intro h
          exact absurd h (by linarith)
    · rw [if_neg hle]
      refine ⟨?_, ?_, ?_⟩
      · constructor
        · intro h
          exact absurd h (by simp)
        · intro h
          exact absurd h (by omega)
      · constructor
        · intro h
          exact absurd h (by simp)
        · intro h
          exact absurd h.2 (by linarith)
      · constructor
        · intro _
          linarith [not_le.mp hle]
        · intro _
          rfl

/-- C5 witness: one available out of five (exactly the 20% boundary) is
classified Limited. -/
theorem getStatusColor_spec_example :
    getStatusColor ((1 : ℕ) : ℚ) ((5 : ℕ) : ℚ) = StatusColor.low :=
  (getStatusColor_spec 1 5 (by norm_num)).2.1.mpr (by norm_num)

/-- C6: at any instant where the location is closed, the `ParkingCard`
render data shows the available count as 0 (both in the badge and the big
number), the status as Full with the badge label "Closed", and the stored
`availableSpots` field of the location is untouched. -/
theorem parkingCard_closed_display (loc : ParkingLocation) (t : Instant)
    (h : isLocationOpen loc t = false) :
    (parkingCard loc t).1.countDisplay = 0 ∧
    (parkingCard loc t).1.badgeAvailable = 0 ∧
    (parkingCard loc t).1.status = StatusColor.full ∧
    (parkingCard loc t).1.badgeLabel = some "Closed" ∧
    (parkingCard loc t).2.availableSpots = loc.availableSpots ∧
    (parkingCard loc t).2 = loc := by
  simp [parkingCard, h]

/-- C6 witness: the overnight fixture is closed Monday 05:00; its card
shows 0 of 10, status Full, label "Closed", and the stored count 5 is
untouched. -/
theorem parkingCard_closed_display_example :
    (parkingCard overnightMonFixture monday0500).1.countDisplay = 0 ∧
    (parkingCard overnightMonFixture monday0500).1.badgeAvailable = 0 ∧
    (parkingCard overnightMonFixture monday0500).1.status = StatusColor.full ∧
    (parkingCard overnightMonFixture monday0500).1.badgeLabel = some "Closed" ∧
    (parkingCard overnightMonFixture monday0500).2.availableSpots =
      overnightMonFixture.availableSpots ∧
    (parkingCard overnightMonFixture monday0500).2 = overnightMonFixture :=
  parkingCard_closed_display overnightMonFixture monday0500 (by decide)

lemma placeSpot_isSome (segs : List ((ℚ × ℚ) × (ℚ × ℚ) × ℚ)) (hne : segs ≠ []) :
    ∀ acc t : ℚ, (placeSpot segs acc t).isSome := by
  induction segs with
  | nil => exact absurd rfl hne
  | cons s rest ih =>
    intro acc t
    obtain ⟨p0, p1, len⟩ := s
    cases rest with
    | nil => simp [placeSpot]
    | cons s2 rest2 =>
      by_cases h : acc + len ≥ t
      · simp [placeSpot, h]
      · simp only [placeSpot, if_neg h]
        exact ih (List.cons_ne_nil _ _) (acc + len) t

lemma length_filterMap_of_isSome (f : α → Option β) (l : List α)
    (h : ∀ a ∈ l, (f a).isSome) : (l.filterMap f).length = l.length := by
  induction l with
  | nil => rfl
  | cons a l ih =>
    rcases ho : f a with _ | b
    · exact absurd (h a (by simp)) (by simp [ho])
    · simp only [List.filterMap_cons, ho, List.length_cons]
      rw [ih fun x hx => h x (by simp [hx])]

lemma pathSegs_ne_nil (distFn : DistFn) (path : List (ℚ × ℚ)) (h : 2 ≤ path.length) :
    pathSegs distFn path ≠ [] := by
  match path, h with
  | p0 :: p1 :: rest, _ => simp [pathSegs]


/-- C10 (implicit): for a present path of at least two points, strictly
positive total path length and positive `totalSpots`, the interpolator
returns exactly `totalSpots` positions, independent of path shape. -/
theorem getSpotPositions_length (distFn : DistFn) (loc : ParkingLocation) (path : List (ℚ × ℚ))
    (hp : loc.path = some path) (hlen : 2 ≤ path.length) (htot : 0 < loc.totalSpots)
    (hsum : 0 < ((pathSegs distFn path).map (fun s => s.2.2)).sum) :
    ((getSpotPositions distFn loc).length : Int) = loc.totalSpots := by
  have hsegs := pathSegs_ne_nil distFn path hlen
  simp only [getSpotPositions, hp]
  rw [if_neg (by push_neg; exact ⟨by omega, by omega⟩)]
  rw [if_neg hsum.ne']
  rw [length_filterMap_of_isSome _ _ fun i _ => placeSpot_isSome _ hsegs _ _]
  rw [List.length_range]
  exact Int.toNat_of_nonneg htot.le

/-- C10 witness: the straight two-point demo street with four spots yields
exactly four positions. -/
theorem getSpotPositions_length_example :
    ((getSpotPositions sqDist demoStreet).length : Int) = demoStreet.totalSpots :=
  getSpotPositions_length sqDist demoStreet [(0, 0), (0, 1)] rfl (by decide) (by decide)
    (by norm_num [pathSegs, sqDist])

lemma placeSpot_singleton (p0 p1 : ℚ × ℚ) (len acc t : ℚ) :
    placeSpot [(p0, p1, len)] acc t = some (interpSeg p0 p1 len acc t) := rfl

lemma interpSeg_frac (p0 p1 : ℚ × ℚ) (d : ℚ) (hd : d ≠ 0) (t : ℚ) :
    interpSeg p0 p1 d 0 (t * d) = lerp p0 p1 (max (2 / 10) (min (8 / 10) t)) := by
  simp only [interpSeg, if_neg hd, sub_zero, mul_div_cancel_right₀ _ hd]

lemma lerp_ne_endpoints (p0 p1 : ℚ × ℚ) (f : ℚ) (h0 : 0 < f) (h1 : f < 1) (hne : p0 ≠ p1) :
    lerp p0 p1 f ≠ p0 ∧ lerp p0 p1 f ≠ p1 := by
  constructor
  · intro h
    apply hne
    have e1 := congrArg Prod.fst h
    have e2 := congrArg Prod.snd h
    simp only [lerp] at e1 e2
    have z1 : (p1.1 - p0.1) * f = 0 := by linarith
    have z2 : (p1.2 - p0.2) * f = 0 := by linarith
    have f0 : f ≠ 0 := ne_of_gt h0
    have w1 : p1.1 - p0.1 = 0 := by
      rcases mul_eq_zero.mp z1 with hz | hz
      · exact hz
      · exact absurd hz f0
    have w2 : p1.2 - p0.2 = 0 := by
      rcases mul_eq_zero.mp z2 with hz | hz
      · exact hz
      · exact absurd hz f0
    exact Prod.ext (by linarith) (by linarith)
  · intro h
    apply hne
    have e1 := congrArg Prod.fst h
    have e2 := congrArg Prod.snd h
    simp only [lerp] at e1 e2
    have z1 : (p1.1 - p0.1) * (f - 1) = 0 := by linear_combination e1
    have z2 : (p1.2 - p0.2) * (f - 1) = 0 := by linear_combination e2
    have f1 : f - 1 ≠ 0 := by
      intro hz
      exact absurd (by linarith : f = 1) (ne_of_lt h1)
    have w1 : p1.1 - p0.1 = 0 := by
      rcases mul_eq_zero.mp z1 with hz | hz
      · exact hz
      · exact absurd hz f1
    have w2 : p1.2 - p0.2 = 0 := by
      rcases mul_eq_zero.mp z2 with hz | hz
      · exact hz
      · exact absurd hz f1
    exact Prod.ext (by linarith) (by linarith)

lemma getSpotPositions_two_point (distFn : DistFn) (loc : ParkingLocation) (p0 p1 : ℚ × ℚ)
    (hp : loc.path = some [p0, p1]) (htot : loc.totalSpots = 4)
    (hd : distFn p0.1 p0.2 p1.1 p1.2 ≠ 0) :
    getSpotPositions distFn loc =
      [lerp p0 p1 (1 / 5), lerp p0 p1 (3 / 8), lerp p0 p1 (5 / 8), lerp p0 p1 (4 / 5)] := by
  simp only [getSpotPositions, hp, htot, pathSegs, List.map_cons, List.map_nil, List.sum_cons,
    List.sum_nil, add_zero]
  rw [if_neg (by norm_num), if_neg hd]
  rw [show ((4 : Int)).toNat = 4 from rfl, show List.range 4 = [0, 1, 2, 3] by decide]
  simp only [List.filterMap_cons, List.filterMap_nil, placeSpot_singleton,
    interpSeg_frac p0 p1 _ hd]
  norm_num [min_def, max_def]

/-- C8: `getSpotPositions` returns the empty sequence for every degenerate
input (no path, fewer than two points, total length zero, or
`totalSpots ≤ 0`); and for a straight two-point path with four spots it
returns exactly four points at strictly increasing interior parameters
along the path, none of which coincides with either endpoint. -/
theorem getSpotPositions_spec :
    (∀ (distFn : DistFn) (loc : ParkingLocation),
      loc.path = none → getSpotPositions distFn loc = []) ∧
    (∀ (distFn : DistFn) (loc : ParkingLocation) (path : List (ℚ × ℚ)),
      loc.path = some path → path.length < 2 → getSpotPositions distFn loc = []) ∧
    (∀ (distFn : DistFn) (loc : ParkingLocation),
      loc.totalSpots ≤ 0 → getSpotPositions distFn loc = []) ∧
    (∀ (distFn : DistFn) (loc : ParkingLocation) (path : List (ℚ × ℚ)),
      loc.path = some path → ((pathSegs distFn path).map (fun s => s.2.2)).sum = 0 →
      getSpotPositions distFn loc = []) ∧
    (∀ (distFn : DistFn) (loc : ParkingLocation) (p0 p1 : ℚ × ℚ),
      loc.path = some [p0, p1] → loc.totalSpots = 4 →
      0 < distFn p0.1 p0.2 p1.1 p1.2 → p0 ≠ p1 →
      ∃ f1 f2 f3 f4 : ℚ,
        0 < f1 ∧ f1 < f2 ∧ f2 < f3 ∧ f3 < f4 ∧ f4 < 1 ∧
        getSpotPositions distFn loc =
          [lerp p0 p1 f1, lerp p0 p1 f2, lerp p0 p1 f3, lerp p0 p1 f4] ∧
        ∀ pt ∈ getSpotPositions distFn loc, pt ≠ p0 ∧ pt ≠ p1) := by
  refine ⟨?_, ?_, ?_, ?_, ?_⟩
  · intro distFn loc h
    simp [getSpotPositions, h]
  · intro distFn loc path h hlt
    simp [getSpotPositions, h, hlt]
  · intro distFn loc hle
    cases hpath : loc.path with
    | none => simp [getSpotPositions, hpath]
    | some p => simp [getSpotPositions, hpath, hle]
  · intro distFn loc path h hsum
    by_cases hc : path.length < 2 ∨ loc.totalSpots ≤ 0
    · simp [getSpotPositions, h, hc]
    · simp [getSpotPositions, h, hc, hsum]
  · intro distFn loc p0 p1 hp htot hd hne
    have hres := getSpotPositions_two_point distFn loc p0 p1 hp htot hd.ne'
    refine ⟨1 / 5, 3 / 8, 5 / 8, 4 / 5, by norm_num, by norm_num, by norm_num, by norm_num,
      by norm_num, hres, ?_⟩
    intro pt hpt
    rw [hres] at hpt
    simp only [List.mem_cons, List.not_mem_nil, or_false] at hpt
    rcases hpt with h | h | h | h <;> subst h
    · exact lerp_ne_endpoints p0 p1 (1 / 5) (by norm_num) (by norm_num) hne
    · exact lerp_ne_endpoints p0 p1 (3 / 8) (by norm_num) (by norm_num) hne
    · exact lerp_ne_endpoints p0 p1 (5 / 8) (by norm_num) (by norm_num) hne
    · exact lerp_ne_endpoints p0 p1 (4 / 5) (by norm_num) (by norm_num) hne

/-- C8 witness: a one-point path yields the empty sequence, and the straight
two-point demo street with four spots yields four interior, strictly
ordered positions avoiding both endpoints. -/
theorem getSpotPositions_spec_example :
    getSpotPositions sqDist onePointStreet = [] ∧
    (∃ f1 f2 f3 f4 : ℚ,
      0 < f1 ∧ f1 < f2 ∧ f2 < f3 ∧ f3 < f4 ∧ f4 < 1 ∧
      getSpotPositions sqDist demoStreet =
        [lerp (0, 0) (0, 1) f1, lerp (0, 0) (0, 1) f2, lerp (0, 0) (0, 1) f3,
          lerp (0, 0) (0, 1) f4] ∧
      ∀ pt ∈ getSpotPositions sqDist demoStreet, pt ≠ (0, 0) ∧ pt ≠ (0, 1)) :=
  ⟨getSpotPositions_spec.2.1 sqDist onePointStreet [(0, 0)] rfl (by decide),
   getSpotPositions_spec.2.2.2.2 sqDist demoStreet (0, 0) (0, 1) rfl rfl
     (by norm_num [sqDist]) (by decide)⟩

/-- C9: for any catalog, instant and question that the engine's ordered
intent list classifies as the "closest to me" intent (none of the earlier
intents fires and the closest-intent pattern matches), a missing user
location produces the search-an-address-first fallback string — the engine
is a total `String`-valued function, so it neither throws nor returns
null. -/
theorem answerParkingQuestion_closest_fallback (distFn : DistFn)
    (locations : List ParkingLocation) (now : Instant) (question q : String)
    (hq : jsToLower (jsTrim question) = q)
    (hne : (q == "") = false)
    (hhelp : helpTrigger q = false) (hqm : (q == "?") = false)
    (hjo : justOpenedTrigger q = false)
    (hmf : mapSaysFullTrigger q = false)
    (hpred : predictionTrigger q = false)
    (htrend : trendTrigger q = false)
    (hlm : landmarkStep distFn locations now q = none)
    (hrest : restaurantsStep locations now q = none)
    (hclosest : closestTrigger q = true) :
    answerParkingQuestion distFn locations question now none =
      "Search for an address on the map first—then I can tell you the closest available parking to that spot." := by
  unfold answerParkingQuestion
  rw [hq]
  simp [hne, hhelp, hqm, hjo, hmf, hpred, htrend, hlm, hrest, hclosest]

/-- C9 witness: "closest parking to me" with no prior location on an empty
catalog yields the fallback instruction. -/
theorem answerParkingQuestion_closest_fallback_example :
    answerParkingQuestion sqDist [] "closest parking to me" monday1200 none =
      "Search for an address on the map first—then I can tell you the closest available parking to that spot." :=
  answerParkingQuestion_closest_fallback sqDist [] monday1200 "closest parking to me"
    "closest parking to me" rfl rfl rfl rfl rfl rfl rfl rfl rfl rfl rfl
